import Mathlib

/-!
Verification of the API-gateway core (Practica_3).

Shallow embedding of the request-routing gateway of this repository:
the circuit-breaker wrapper, the order-placement saga (POST /orders),
the user/orders aggregation endpoint (GET /users/:userId/details),
the plain pass-through routes, the management backend's product routes,
and the order storage model.

Sources embedded:
- src/Practica_3/api_gateway/app/index.js (routes, breakers, fallbacks)
- src/Practica_3/service_management/app/routes/management.js
- src/Practica_3/service_management/app/services/management_service.js
- src/unnamed/part_005 (ManagementModel), src/unnamed/part_007 (Joi schemas)
- src/Practica_3/service_orders/app/models.js (OrderModel)

The circuit breaker itself is the `opossum` npm library, a declared
dependency whose source is not part of this repository; its behaviour is
modelled in two places below, each documented at its definition:
the resolve-with-fallback contract of `fire` (used by every route), and
a breaker state machine modelled from the specification (section 4.1).
-/

/-- A row of the `orders` table: `INSERT INTO orders (user_id, product)`
with a serial `id` (src/Practica_3/service_orders/app/models.js). -/
structure OrderRow where
  id : Nat
  user_id : Int
  product : String
deriving DecidableEq, Repr

/-- A management row as selected by `SELECT product, quantity` -- the shape
the management service returns to the gateway (src/unnamed/part_005). -/
structure MgmtRow where
  product : String
  quantity : Int
deriving DecidableEq, Repr

/-- The JSON bodies that flow through the modelled routes.
`errorMsg m` is a body of shape with a single `error` field holding `m`;
`sentinel` is the body with a single field `quantity : -1` returned by
GET /management/product for an untracked product; `aggregate` is the
response of the details endpoint, with a `user` field (which the code can
fill with any resolved body, including a fallback object) and an `orders`
array. -/
inductive Body where
  | errorMsg (msg : String)
  | order (o : OrderRow)
  | mgmt (m : MgmtRow)
  | sentinel
  | user (email : String) (name : String)
  | orders (l : List OrderRow)
  | aggregate (u : Body) (l : List OrderRow)
deriving DecidableEq, Repr

/-- An HTTP response of the gateway: status code plus JSON body. -/
structure Response where
  status : Nat
  body : Body
deriving DecidableEq, Repr

/-- The outcome of one downstream HTTP call, as seen by the breaker action
functions of src/Practica_3/api_gateway/app/index.js lines 25-68.  Each
action runs axios with `validateStatus` accepting 2xx and 404, and
additionally returns `error.response.data` on a 404 rejection; so:
`success b` is a 2xx response with data `b`; `notFound b` is a 404 response
with data `b` (the action RESOLVES with it); `failure e` is a network
error, timeout, or any other status (the action THROWS, `e` being the raw
error value); `breakerOpen` means the breaker did not attempt the call. -/
inductive CallOutcome where
  | success (b : Body)
  | notFound (b : Body)
  | failure (e : String)
  | breakerOpen
deriving DecidableEq, Repr

/-- Result of `circuit.fire(...)` as awaited by a route handler:
either the promise resolved with a body, or it rejected with an error. -/
inductive FireOutcome where
  | resolved (b : Body)
  | rejected (e : String)
deriving DecidableEq, Repr

/-- `circuit.fire` of the opossum library with a registered fallback,
modelled from the library contract (opossum is a declared dependency of
the gateway, not part of this repository's sources): when a fallback
function is registered -- index.js lines 71-73 register one constant,
never-throwing fallback per circuit -- `fire` resolves with the action's
value when the action resolves, and resolves with the fallback's value
whenever the action throws, times out, or the circuit is open; it would
reject only if the fallback itself threw, which a constant function cannot
do.  Hence `fire` never yields `FireOutcome.rejected`. -/
def fire (fallbackBody : Body) : CallOutcome → FireOutcome
  | .success b => .resolved b
  | .notFound b => .resolved b
  | .failure _ => .resolved fallbackBody
  | .breakerOpen => .resolved fallbackBody

/-- Fallback body registered for the users circuit (index.js line 71). -/
def usersFallbackBody : Body := .errorMsg "Users service temporarily unavailable"

/-- Fallback body registered for the orders circuit (index.js line 72). -/
def ordersFallbackBody : Body := .errorMsg "Orders service temporarily unavailable"

/-- Fallback body registered for the management circuit (index.js line 73). -/
def mgmtFallbackBody : Body := .errorMsg "Management service temporarily unavailable"

/-- The `error` field of a body, when present (used by the JS checks
`user.error === 'User not found'` etc.). -/
def errField : Body → Option String
  | .errorMsg m => some m
  | _ => none

/-- `parseInt(management.quantity)` of index.js line 149: the quantity
field of the body when it has one, `none` standing for JavaScript `NaN`
(`parseInt(undefined)`), for which both `quantity > 0` and
`quantity == -1` are false. -/
def jsQuantity : Body → Option Int
  | .mgmt m => some m.quantity
  | .sentinel => some (-1)
  | _ => none

/-- A JavaScript exception escaping a route handler's `try` block. -/
inductive JsAbort where
  | reject (e : String)
  | referenceError (name : String)
  | typeError (msg : String)
deriving DecidableEq, Repr

/-- The downstream world a single POST /orders request runs against:
the outcome of the management GET (inventory check), of the orders POST
(order creation), and of the management PUT (decrement) as a function of
the quantity sent. -/
structure SagaEnv where
  mgmtGet : CallOutcome
  ordersPost : CallOutcome
  mgmtPut : Int → CallOutcome

/-- Which downstream mutation calls the saga issued: whether the
order-creation POST was fired, and the quantity sent by the decrement PUT
when it was fired. -/
structure SagaCalls where
  orderCall : Bool
  decrementCall : Option Int
deriving DecidableEq, Repr

/-- The `try` block of `app.post('/orders')` (index.js lines 146-174),
translated line by line.  Note the `quantity == -1` branch: the JS runs
`res.status(201).json(order)`, but `order` is declared with `const`
inside the `quantity > 0` block and is not in scope there, so evaluating
it raises a ReferenceError, modelled by `JsAbort.referenceError "order"`.
The second component records the downstream mutation calls issued. -/
def postOrdersTry (env : SagaEnv) : Except JsAbort Response × SagaCalls :=
  match fire mgmtFallbackBody env.mgmtGet with
  | .rejected e => (.error (.reject e), ⟨false, none⟩)
  | .resolved management =>
    match jsQuantity management with
    | some quantity =>
      if 0 < quantity then
        match fire ordersFallbackBody env.ordersPost with
        | .rejected e => (.error (.reject e), ⟨true, none⟩)
        | .resolved order =>
          match fire mgmtFallbackBody (env.mgmtPut (quantity - 1)) with
          | .rejected e => (.error (.reject e), ⟨true, some (quantity - 1)⟩)
          | .resolved _ => (.ok ⟨201, order⟩, ⟨true, some (quantity - 1)⟩)
      else if quantity = -1 then
        (.error (.referenceError "order"), ⟨false, none⟩)
      else
        (.ok ⟨400, .errorMsg "Product quantity is 0"⟩, ⟨false, none⟩)
    | none =>
      (.ok ⟨400, .errorMsg "Product quantity is 0"⟩, ⟨false, none⟩)

/-- `app.post('/orders')` with its `catch` block: any exception from the
`try` block is answered by status 500 with the fixed body
`error: 'POST /orders error'` (index.js lines 171-173). -/
def postOrders (env : SagaEnv) : Response × SagaCalls :=
  match postOrdersTry env with
  | (.ok r, c) => (r, c)
  | (.error _, c) => (⟨500, .errorMsg "POST /orders error"⟩, c)

/-- `app.get('/users/:userId')` (index.js lines 76-87) applied to the
awaited fire outcome: 404 when the body's `error` field is
`'User not found'`, otherwise 200 with the body; the `catch` answers 500
with `error: 'Internal server error'`. -/
def getUserHandler : FireOutcome → Response
  | .resolved u =>
    if errField u = some "User not found" then ⟨404, u⟩ else ⟨200, u⟩
  | .rejected _ => ⟨500, .errorMsg "Internal server error"⟩

/-- The full route GET /users/:userId: the users breaker's `fire`
composed with the handler. -/
def getUserRoute (o : CallOutcome) : Response :=
  getUserHandler (fire usersFallbackBody o)

/-- `app.get('/management/product')` (index.js lines 247-254) applied to
the awaited fire outcome: 200 with whatever body resolved; the `catch`
runs `res.status(500).json(error: error)` -- it forwards the RAW error
value, modelled by embedding the rejection payload in the body. -/
def mgmtProductHandler : FireOutcome → Response
  | .resolved b => ⟨200, b⟩
  | .rejected e => ⟨500, .errorMsg e⟩

/-- The full route GET /management/product: the management breaker's
`fire` composed with the handler. -/
def mgmtProductRoute (o : CallOutcome) : Response :=
  mgmtProductHandler (fire mgmtFallbackBody o)

/-- The orders array of a resolved body, when it is an array; `none` for
any non-array body, on which the JS `orders.filter(...)` raises a
TypeError. -/
def asOrdersArray : Body → Option (List OrderRow)
  | .orders l => some l
  | _ => none

/-- `app.get('/users/:userId/details')` (index.js lines 278-307).
`uid` is the numeric user id of the path (order rows carry numeric
`user_id`, compared by JS loose equality with the id string).  The two
breaker calls are joined Promise.all-style: if the orders body is not an
array, the `.then` callback's `orders.filter` raises a TypeError and the
joined promise rejects, landing in the `catch` (status 500,
`error: 'Internal server error'`) even when the user body resolved to
`'User not found'`; a rejection of either fire lands in the same
`catch`.  Otherwise: 404 with the user body when its `error` field is
`'User not found'` (the filtered order list is discarded), else 200 with
the aggregate of the user body and the rows whose `user_id` matches. -/
def detailsRoute (uid : Int) (userCall ordersCall : CallOutcome) : Response :=
  match fire usersFallbackBody userCall, fire ordersFallbackBody ordersCall with
  | .resolved u, .resolved ob =>
    match asOrdersArray ob with
    | some l =>
      if errField u = some "User not found" then ⟨404, u⟩
      else ⟨200, .aggregate u (l.filter (fun o => o.user_id = uid))⟩
    | none => ⟨500, .errorMsg "Internal server error"⟩
  | _, _ => ⟨500, .errorMsg "Internal server error"⟩

/-- A full row of the `management` table (serial id, product, quantity),
as stored by src/unnamed/part_005. -/
structure MgmtDbRow where
  id : Nat
  product : String
  quantity : Int
deriving DecidableEq, Repr

/-- The management backend's state: the `management` table rows and the
redis cache (string key to cached JSON body; the JSON round trip of a row
body is the identity, so cached values are stored as bodies). -/
structure MgmtState where
  store : List MgmtDbRow
  cache : List (String × Body)
deriving DecidableEq, Repr

/-- `redisClient.get`: the value cached under `k`, if any. -/
def cacheGet (c : List (String × Body)) (k : String) : Option Body :=
  (c.find? (fun kv => kv.1 = k)).map (fun kv => kv.2)

/-- `redisClient.setEx` (expiry not modelled): cache `v` under `k`. -/
def cacheSet (c : List (String × Body)) (k : String) (v : Body) :
    List (String × Body) :=
  (k, v) :: c.filter (fun kv => kv.1 ≠ k)

/-- `redisClient.del k`. -/
def cacheDel (c : List (String × Body)) (k : String) : List (String × Body) :=
  c.filter (fun kv => kv.1 ≠ k)

/-- `ManagementModel.getByProduct` (src/unnamed/part_005):
`SELECT product, quantity FROM management WHERE product = $1`, rows[0]. -/
def ManagementModel.getByProduct (store : List MgmtDbRow) (p : String) :
    Option MgmtDbRow :=
  (store.filter (fun r => r.product = p)).head?

/-- `ManagementModel.decreaseQuantity` (src/unnamed/part_005):
`UPDATE management SET quantity = $1 WHERE product = $2 RETURNING *`;
returns rows[0] of the updated rows and the new table. -/
def ManagementModel.decreaseQuantity (store : List MgmtDbRow) (p : String)
    (q : Int) : Option MgmtDbRow × List MgmtDbRow :=
  let updated := store.map (fun r => if r.product = p then ⟨r.id, r.product, q⟩ else r)
  ((updated.filter (fun r => r.product = p)).head?, updated)

/-- `ManagementService.getManagementByProduct`
(src/Practica_3/service_management/app/services/management_service.js):
serve from the cache key `management:` ++ product when present, else read
the table and cache a found row (a row object is truthy with undefined
length, so the `length != 0` guard passes); `none` models the service
returning `undefined` for an absent product. -/
def ManagementService.getManagementByProduct (st : MgmtState) (p : String) :
    Option Body × MgmtState :=
  match cacheGet st.cache ("management:" ++ p) with
  | some b => (some b, st)
  | none =>
    match ManagementModel.getByProduct st.store p with
    | some r =>
      let b := Body.mgmt ⟨r.product, r.quantity⟩
      (some b, ⟨st.store, cacheSet st.cache ("management:" ++ p) b⟩)
    | none => (none, st)

/-- `ManagementService.decreaseQuantity` (management_service.js): run the
model update; when a row came back, delete the cache keys
`management:` ++ product, `management:all`, and `management:` ++ id. -/
def ManagementService.decreaseQuantity (st : MgmtState) (p : String)
    (q : Int) : Option MgmtDbRow × MgmtState :=
  match ManagementModel.decreaseQuantity st.store p q with
  | (some r, store') =>
    (some r,
      ⟨store',
        cacheDel (cacheDel (cacheDel st.cache ("management:" ++ p))
            "management:all") ("management:" ++ toString r.id)⟩)
  | (none, store') => (none, ⟨store', st.cache⟩)

/-- Joi `updateSchema` of the management service (src/unnamed/part_007)
applied to the saga's PUT body: `product` a string of length 3 to 30,
`quantity` an integer of at least 0. -/
def mgmtUpdateValid (p : String) (q : Int) : Prop :=
  3 ≤ p.length ∧ p.length ≤ 30 ∧ 0 ≤ q

instance (p : String) (q : Int) : Decidable (mgmtUpdateValid p q) := by
  unfold mgmtUpdateValid; infer_instance

/-- `router.get('/product')` of the management service
(src/Practica_3/service_management/app/routes/management.js lines 7-19):
200 with the row body, or 200 with the sentinel body `quantity: -1` when
the service returned nothing. -/
def mgmtGetProductRoute (st : MgmtState) (p : String) : Response × MgmtState :=
  match ManagementService.getManagementByProduct st p with
  | (some b, st') => (⟨200, b⟩, st')
  | (none, st') => (⟨200, .sentinel⟩, st')

/-- `router.put('/product')` of the management service (lines 21-40):
400 on a Joi validation failure (the dynamic Joi message is modelled by a
fixed string; nothing downstream reads it), 404 when no row matched, else
200 with the updated row (the `id` field of `RETURNING *` is dropped from
the body; no caller reads it). -/
def mgmtPutProductRoute (st : MgmtState) (p : String) (q : Int) :
    Response × MgmtState :=
  if mgmtUpdateValid p q then
    match ManagementService.decreaseQuantity st p q with
    | (some r, st') => (⟨200, .mgmt ⟨r.product, r.quantity⟩⟩, st')
    | (none, st') => (⟨404, .errorMsg "Management not found"⟩, st')
  else (⟨400, .errorMsg "Joi validation error"⟩, st)

/-- A management-route response as the gateway breaker action sees it:
2xx resolves with the body, 404 resolves with the body (validateStatus
admits it), any other status makes the action throw. -/
def outcomeOfMgmtResponse (r : Response) : CallOutcome :=
  if 200 ≤ r.status ∧ r.status < 300 then .success r.body
  else if r.status = 404 then .notFound r.body
  else .failure "non-2xx management response"

/-- One POST /orders request run against a concrete management backend
state: the saga's inventory GET is served by `mgmtGetProductRoute`
(updating the cache), its decrement PUT -- when and only when the saga
issues one, with the quantity the saga chose -- by `mgmtPutProductRoute`
on the state the GET left; the order-creation outcome stays a parameter.
Returns the gateway response, the calls issued, and the final management
state. -/
def runSagaSystem (st : MgmtState) (p : String) (ordersPost : CallOutcome) :
    (Response × SagaCalls) × MgmtState :=
  let (gresp, st1) := mgmtGetProductRoute st p
  let env : SagaEnv :=
    { mgmtGet := outcomeOfMgmtResponse gresp
      ordersPost := ordersPost
      mgmtPut := fun q => outcomeOfMgmtResponse (mgmtPutProductRoute st1 p q).1 }
  let rc := postOrders env
  let st2 :=
    match rc.2.decrementCall with
    | some q => (mgmtPutProductRoute st1 p q).2
    | none => st1
  (rc, st2)

/-- The `orders` table with its serial id sequence
(src/Practica_3/service_orders/app/models.js). -/
structure OrdersDb where
  rows : List OrderRow
  nextId : Nat
deriving DecidableEq, Repr

/-- `OrderModel.create`: `INSERT INTO orders (user_id, product) RETURNING *`
-- the new row takes the next sequence value. -/
def OrderModel.create (db : OrdersDb) (uid : Int) (p : String) :
    OrderRow × OrdersDb :=
  let row : OrderRow := ⟨db.nextId, uid, p⟩
  (row, ⟨db.rows ++ [row], db.nextId + 1⟩)

/-- `OrderModel.getAll` (models.js lines 10-16): `SELECT * FROM orders`;
when the result is empty it additionally executes
`TRUNCATE TABLE orders RESTART IDENTITY`, which resets the id sequence
to 1; the (empty) selected rows are returned either way. -/
def OrderModel.getAll (db : OrdersDb) : List OrderRow × OrdersDb :=
  if db.rows = [] then ([], ⟨[], 1⟩) else (db.rows, db)

/-- `OrderModel.delete`: `DELETE FROM orders WHERE id = $1 RETURNING *`. -/
def OrderModel.delete (db : OrdersDb) (oid : Nat) : Option OrderRow × OrdersDb :=
  ((db.rows.filter (fun r => r.id = oid)).head?,
    ⟨db.rows.filter (fun r => r.id ≠ oid), db.nextId⟩)

/-- Modelled from the spec: the CircuitBreaker policy of section 3 and
section 4.1 (the breaker implementation is the opossum library, whose
source is not part of this repository).  `errorThresholdPercentage` is
the error-ratio threshold T as a percentage, `volumeThreshold` the
minimum sample volume M, `resetTimeout` the reset interval. -/
structure BreakerPolicy where
  errorThresholdPercentage : Nat
  volumeThreshold : Nat
  resetTimeout : Nat
deriving DecidableEq, Repr

/-- Modelled from the spec: breaker phases of section 4.1.  HALF_OPEN is
transient in the sequential model below -- an admitted trial completes
within the same `Breaker.execute` step -- so only CLOSED and OPEN persist
between steps. -/
inductive BreakerPhase where
  | closed
  | opened
deriving DecidableEq, Repr

/-- Modelled from the spec: the mutable BreakerState of section 3 --
phase, rolling success and failure counts, and the time the breaker last
opened. -/
structure BreakerState where
  phase : BreakerPhase
  failures : Nat
  successes : Nat
  openedAt : Nat
deriving DecidableEq, Repr

/-- The initial (CLOSED) breaker state. -/
def BreakerState.init : BreakerState := ⟨.closed, 0, 0, 0⟩

/-- The rolling window has at least the minimum sample volume and its
failure ratio is at least the threshold percentage. -/
def windowTrips (pol : BreakerPolicy) (st : BreakerState) : Prop :=
  pol.volumeThreshold ≤ st.failures + st.successes ∧
    pol.errorThresholdPercentage * (st.failures + st.successes) ≤ st.failures * 100

instance (pol : BreakerPolicy) (st : BreakerState) :
    Decidable (windowTrips pol st) := by
  unfold windowTrips; infer_instance

/-- What one `execute` step produced: `attempted ok` when the downstream
call was attempted and succeeded (`ok = true`) or failed, `fallback` when
the breaker short-circuited. -/
inductive ExecOutcome where
  | attempted (ok : Bool)
  | fallback
deriving DecidableEq, Repr

/-- Result of one `execute` step: the outcome, the number of downstream
invocations this step performed (0 or 1), and the new breaker state. -/
structure ExecResult where
  outcome : ExecOutcome
  invocations : Nat
  state : BreakerState
deriving DecidableEq, Repr

/-- Modelled from the spec: recording one CLOSED-phase call outcome in
the rolling window (section 4.1). -/
def recordOutcome (st : BreakerState) (callFails : Bool) : BreakerState :=
  if callFails then ⟨.closed, st.failures + 1, st.successes, st.openedAt⟩
  else ⟨.closed, st.failures, st.successes + 1, st.openedAt⟩

/-- Modelled from the spec: `CircuitBreaker.execute` of section 4.1, in
sequential time (`now` is the step's timestamp, `callFails` whether the
downstream call would fail if attempted).
CLOSED: attempt the call, record the outcome in the rolling window, and
transition to OPEN (recording `now` as the open timestamp) when the
window has reached the minimum sample volume with a failure ratio at or
above the threshold.
OPEN: while the elapsed time since the open timestamp has not exceeded
the reset interval, return the fallback with zero invocations and an
unchanged state; once it has, admit the call as a HALF_OPEN trial: a
trial success closes the breaker and resets the rolling window, a trial
failure reopens it, resetting the open timestamp and the window. -/
def Breaker.execute (pol : BreakerPolicy) (st : BreakerState) (now : Nat)
    (callFails : Bool) : ExecResult :=
  match st.phase with
  | .closed =>
    let st' : BreakerState := recordOutcome st callFails
    if windowTrips pol st' then
      ⟨.attempted (!callFails), 1, ⟨.opened, st'.failures, st'.successes, now⟩⟩
    else
      ⟨.attempted (!callFails), 1, st'⟩
  | .opened =>
    if st.openedAt + pol.resetTimeout < now then
      if callFails then ⟨.attempted false, 1, ⟨.opened, 0, 0, now⟩⟩
      else ⟨.attempted true, 1, ⟨.closed, 0, 0, st.openedAt⟩⟩
    else
      ⟨.fallback, 0, st⟩

/-- A sequence of `execute` steps, each given by a timestamp and whether
the downstream call would fail; returns the outcomes in order, the total
number of downstream invocations, and the final state. -/
def Breaker.executeSeq (pol : BreakerPolicy) (st : BreakerState) :
    List (Nat × Bool) → List ExecOutcome × Nat × BreakerState
  | [] => ([], 0, st)
  | c :: cs =>
    let r := Breaker.execute pol st c.1 c.2
    let rest := Breaker.executeSeq pol r.state cs
    (r.outcome :: rest.1, r.invocations + rest.2.1, rest.2.2)

/-- Replace the raw error payload of a failure outcome by the empty
string, leaving every other outcome untouched.  A handler whose response
is invariant under scrubbing cannot let the raw downstream error value
flow into the response. -/
def scrubOutcome : CallOutcome → CallOutcome
  | .failure _ => .failure ""
  | o => o

/-- Scrub every downstream outcome a POST /orders request can observe. -/
def scrubEnv (env : SagaEnv) : SagaEnv :=
  ⟨scrubOutcome env.mgmtGet, scrubOutcome env.ordersPost,
    fun q => scrubOutcome (env.mgmtPut q)⟩

/-- `fire` ignores the raw error payload of a failure: it resolves with
the registered fallback body either way. -/
theorem fire_scrub (fb : Body) (o : CallOutcome) :
    fire fb (scrubOutcome o) = fire fb o := by
  cases o <;> rfl

/-- C1: the claim says a POST /orders whose inventory check returns the
untracked sentinel (quantity -1) still creates the order and answers 201;
the code instead raises a ReferenceError on the out-of-scope `order`
variable, issues no order-creation call, and answers 500. -/
theorem c1_sentinel_branch_crashes :
    postOrdersTry ⟨.success .sentinel, .success (.order ⟨1, 1, "widget"⟩),
        fun q => .success (.mgmt ⟨"widget", q⟩)⟩
      = (.error (.referenceError "order"), ⟨false, none⟩) ∧
    postOrders ⟨.success .sentinel, .success (.order ⟨1, 1, "widget"⟩),
        fun q => .success (.mgmt ⟨"widget", q⟩)⟩
      = (⟨500, .errorMsg "POST /orders error"⟩, ⟨false, none⟩) := by
  exact ⟨rfl, rfl⟩

/-- C2: the claim says an order-creation failure aborts the saga with a
500-class response and no decrement; the code's orders breaker resolves
with its fallback body instead of rejecting, so the saga carries on,
issues the decrement (5 becomes 4), and answers 201 with the fallback
error object as the created order. -/
theorem c2_creation_failure_still_decrements :
    postOrders ⟨.success (.mgmt ⟨"widget", 5⟩), .failure "ECONNREFUSED",
        fun q => .success (.mgmt ⟨"widget", q⟩)⟩
      = (⟨201, ordersFallbackBody⟩, ⟨true, some 4⟩) := by
  rfl

/-- C9: whenever the inventory check observes quantity 0, the saga
answers 400 with the body error: 'Product quantity is 0' and issues
neither the order-creation call nor a decrement. -/
theorem c9_zero_quantity_aborts (env : SagaEnv) (p : String)
    (h : env.mgmtGet = .success (.mgmt ⟨p, 0⟩)) :
    postOrders env = (⟨400, .errorMsg "Product quantity is 0"⟩, ⟨false, none⟩) := by
  obtain ⟨mg, op, mp⟩ := env
  simp only at h
  subst h
  rfl

theorem c9_zero_quantity_aborts_witness :
    postOrders ⟨.success (.mgmt ⟨"widget", 0⟩), .success (.order ⟨1, 1, "widget"⟩),
        fun q => .success (.mgmt ⟨"widget", q⟩)⟩
      = (⟨400, .errorMsg "Product quantity is 0"⟩, ⟨false, none⟩) :=
  c9_zero_quantity_aborts _ "widget" rfl

/-- C4 counterexample: with the users call failing outright and the order
list succeeding, GET /users/7/details answers 200 with a partial result
(the users fallback object in the user field plus the order subset), not
500 -- refuting the claim that either branch failing always yields 500
with no partial result. -/
theorem c4_counterexample :
    detailsRoute 7 (.failure "ECONNREFUSED") (.success (.orders [⟨1, 7, "widget"⟩]))
        = ⟨200, .aggregate usersFallbackBody [⟨1, 7, "widget"⟩]⟩ ∧
      (detailsRoute 7 (.failure "ECONNREFUSED")
          (.success (.orders [⟨1, 7, "widget"⟩]))).status ≠ 500 := by
  exact ⟨rfl, by decide⟩

/-- C4 amended: when the order-list call fails outright or is
short-circuited, the response is 500 with no partial result; but when
the user-lookup call fails or is short-circuited while the order list
resolves to an array, the response is 200 embedding the users fallback
body together with the filtered orders -- a partial result. -/
theorem c4_amended :
    (∀ uid uo e, detailsRoute uid uo (.failure e)
        = ⟨500, .errorMsg "Internal server error"⟩) ∧
    (∀ uid uo, detailsRoute uid uo .breakerOpen
        = ⟨500, .errorMsg "Internal server error"⟩) ∧
    (∀ uid l e, detailsRoute uid (.failure e) (.success (.orders l))
        = ⟨200, .aggregate usersFallbackBody (l.filter fun o => o.user_id = uid)⟩) ∧
    (∀ uid l, detailsRoute uid .breakerOpen (.success (.orders l))
        = ⟨200, .aggregate usersFallbackBody (l.filter fun o => o.user_id = uid)⟩) := by
  refine ⟨fun uid uo e => ?_, fun uid uo => ?_, fun uid l e => rfl, fun uid l => rfl⟩
  · cases uo <;> rfl
  · cases uo <;> rfl

/-- C5 counterexample: with the user lookup resolving to 'User not found'
but the order-list call failing, GET /users/7/details answers 500 (the
orders fallback object has no filter method, so the join rejects), not
404 -- refuting '404 regardless of the order-list outcome'. -/
theorem c5_counterexample :
    detailsRoute 7 (.notFound (.errorMsg "User not found")) (.failure "ECONNREFUSED")
        = ⟨500, .errorMsg "Internal server error"⟩ ∧
      (detailsRoute 7 (.notFound (.errorMsg "User not found"))
          (.failure "ECONNREFUSED")).status ≠ 404 := by
  exact ⟨rfl, by decide⟩

/-- C5 amended: a 'User not found' lookup yields 404 (the order list
discarded) only when the order-list call resolves to an array; when the
order-list call fails or is short-circuited, the response is 500. -/
theorem c5_amended :
    (∀ uid l, detailsRoute uid (.notFound (.errorMsg "User not found"))
        (.success (.orders l)) = ⟨404, .errorMsg "User not found"⟩) ∧
    (∀ uid l, detailsRoute uid (.success (.errorMsg "User not found"))
        (.success (.orders l)) = ⟨404, .errorMsg "User not found"⟩) ∧
    (∀ uid e, detailsRoute uid (.notFound (.errorMsg "User not found"))
        (.failure e) = ⟨500, .errorMsg "Internal server error"⟩) ∧
    (∀ uid, detailsRoute uid (.notFound (.errorMsg "User not found"))
        .breakerOpen = ⟨500, .errorMsg "Internal server error"⟩) := by
  exact ⟨fun uid l => rfl, fun uid l => rfl, fun uid e => rfl, fun uid => rfl⟩

/-- C6 counterexample: with the users breaker open, GET /users/:userId
answers 200 with the fallback body, not 500 -- refuting 'surfaced as 500
with a message identifying the unavailable downstream'. -/
theorem c6_counterexample :
    getUserRoute .breakerOpen
        = ⟨200, .errorMsg "Users service temporarily unavailable"⟩ ∧
      (getUserRoute .breakerOpen).status ≠ 500 := by
  exact ⟨rfl, by decide⟩

/-- C6 amended: while a breaker is OPEN within its reset interval,
execute performs zero downstream invocations and short-circuits to the
fallback with the state unchanged, and the user pass-through route
surfaces the open breaker as HTTP 200 with the fallback body naming the
unavailable downstream. -/
theorem c6_amended (pol : BreakerPolicy) (st : BreakerState) (now : Nat)
    (f : Bool) (hph : st.phase = .opened)
    (hin : now ≤ st.openedAt + pol.resetTimeout) :
    Breaker.execute pol st now f = ⟨.fallback, 0, st⟩ ∧
    getUserRoute .breakerOpen
      = ⟨200, .errorMsg "Users service temporarily unavailable"⟩ := by
  refine ⟨?_, rfl⟩
  unfold Breaker.execute
  split
  · rw [hph] at *
    simp at *
  · rw [if_neg (by omega)]

theorem c6_amended_witness :
    Breaker.execute ⟨50, 10, 3000⟩ ⟨.opened, 6, 4, 100⟩ 1100 true
        = ⟨.fallback, 0, ⟨.opened, 6, 4, 100⟩⟩ ∧
      getUserRoute .breakerOpen
        = ⟨200, .errorMsg "Users service temporarily unavailable"⟩ :=
  c6_amended ⟨50, 10, 3000⟩ ⟨.opened, 6, 4, 100⟩ 1100 true rfl (by decide)

/-- C7: on the modelled gateway routes, the raw downstream error value
never flows into the external response: every route's response is
invariant under scrubbing the error payloads out of the downstream
outcomes, and the failure responses are the fixed generic fallback
bodies.  The leak-shaped catch branch of GET /management/product
(`mgmtProductHandler` on a rejection) is unreachable because `fire`
never rejects once its constant fallback is registered. -/
theorem c7_no_raw_error_in_response :
    (∀ o, getUserRoute (scrubOutcome o) = getUserRoute o) ∧
    (∀ o, mgmtProductRoute (scrubOutcome o) = mgmtProductRoute o) ∧
    (∀ uid uo oo, detailsRoute uid (scrubOutcome uo) (scrubOutcome oo)
        = detailsRoute uid uo oo) ∧
    (∀ env, postOrders (scrubEnv env) = postOrders env) ∧
    (∀ e, getUserRoute (.failure e) = ⟨200, usersFallbackBody⟩) ∧
    (∀ e, mgmtProductRoute (.failure e) = ⟨200, mgmtFallbackBody⟩) := by
  refine ⟨fun o => by cases o <;> rfl, fun o => by cases o <;> rfl,
    fun uid uo oo => by cases uo <;> cases oo <;> rfl, fun env => ?_,
    fun e => rfl, fun e => rfl⟩
  obtain ⟨mg, op, mp⟩ := env
  show postOrders ⟨scrubOutcome mg, scrubOutcome op, fun q => scrubOutcome (mp q)⟩
      = postOrders ⟨mg, op, mp⟩
  unfold postOrders postOrdersTry
  simp only [fire_scrub]

/-- C3: once a CLOSED breaker's rolling window reaches the minimum
sample volume with a failure ratio at or above the threshold, the
recording step transitions it to OPEN (stamping the open time); and from
an OPEN state, every call in a sequence whose timestamps lie within the
reset interval of the open timestamp returns the fallback, performs zero
downstream invocations in total, and leaves the state unchanged. -/
theorem c3_breaker_opens_then_short_circuits (pol : BreakerPolicy) :
    (∀ st now f, st.phase = .closed → windowTrips pol (recordOutcome st f) →
      Breaker.execute pol st now f
        = ⟨.attempted (!f), 1,
            ⟨.opened, (recordOutcome st f).failures,
              (recordOutcome st f).successes, now⟩⟩) ∧
    (∀ st calls, st.phase = .opened →
      (∀ c ∈ calls, c.1 ≤ st.openedAt + pol.resetTimeout) →
      Breaker.executeSeq pol st calls
        = (calls.map fun _ => ExecOutcome.fallback, 0, st)) := by
  constructor
  · intro st now f hph htrips
    unfold Breaker.execute
    split
    · rw [if_pos htrips]
    · rw [hph] at *
      simp at *
  · intro st calls hph hin
    induction calls with
    | nil => rfl
    | cons c cs ih =>
      have hstep : Breaker.execute pol st c.1 c.2 = ⟨.fallback, 0, st⟩ := by
        unfold Breaker.execute
        split
        · rw [hph] at *
          simp at *
        · rw [if_neg (by have := hin c (by simp); omega)]
      unfold Breaker.executeSeq
      rw [hstep]
      have hrest := ih (fun c hc => hin c (by simp [hc]))
      simp only [hrest]
      rfl

theorem c3_breaker_opens_then_short_circuits_witness :
    Breaker.execute ⟨50, 10, 3000⟩ ⟨.closed, 5, 4, 7⟩ 100 true
        = ⟨.attempted false, 1, ⟨.opened, 6, 4, 100⟩⟩ ∧
      Breaker.executeSeq ⟨50, 10, 3000⟩ ⟨.opened, 6, 4, 100⟩
          [(1100, true), (2000, false), (3100, true)]
        = ([.fallback, .fallback, .fallback], 0, ⟨.opened, 6, 4, 100⟩) := by
  constructor
  · exact (c3_breaker_opens_then_short_circuits ⟨50, 10, 3000⟩).1
      ⟨.closed, 5, 4, 7⟩ 100 true rfl (by decide)
  · exact (c3_breaker_opens_then_short_circuits ⟨50, 10, 3000⟩).2
      ⟨.opened, 6, 4, 100⟩ [(1100, true), (2000, false), (3100, true)] rfl
      (by decide)

/-- C10: listing orders is not side-effect-free: whenever the table is
empty, `OrderModel.getAll` truncates it with RESTART IDENTITY, resetting
the id sequence to 1 (a real mutation whenever the sequence had
advanced); consequently, after creating order 1, deleting it and listing
the (now empty) table, the next created order reuses id 1. -/
theorem c10_getAll_truncates_and_ids_recur :
    (∀ db : OrdersDb, db.rows = [] → OrderModel.getAll db = ([], ⟨[], 1⟩)) ∧
    (∀ db : OrdersDb, db.rows = [] → db.nextId ≠ 1 →
      (OrderModel.getAll db).2 ≠ db) ∧
    ((OrderModel.delete (OrderModel.create ⟨[], 1⟩ 1 "widget").2 1).2.nextId = 2 ∧
      (OrderModel.create
        (OrderModel.getAll
          (OrderModel.delete (OrderModel.create ⟨[], 1⟩ 1 "widget").2 1).2).2
        2 "gadget").1.id
      = (OrderModel.create ⟨[], 1⟩ 1 "widget").1.id) := by
  refine ⟨fun db h => ?_, fun db h hn => ?_, by decide, by decide⟩
  · unfold OrderModel.getAll
    rw [if_pos h]
  · unfold OrderModel.getAll
    rw [if_pos h]
    intro hcontra
    exact hn (congrArg OrdersDb.nextId hcontra).symm

theorem c10_getAll_truncates_and_ids_recur_witness :
    OrderModel.getAll ⟨[], 5⟩ = ([], ⟨[], 1⟩) ∧
      (OrderModel.getAll (⟨[], 5⟩ : OrdersDb)).2 ≠ ⟨[], 5⟩ := by
  exact ⟨(c10_getAll_truncates_and_ids_recur).1 ⟨[], 5⟩ rfl,
    (c10_getAll_truncates_and_ids_recur).2.1 ⟨[], 5⟩ rfl (by decide)⟩

/-- C8: for a product stored with quantity q > 0 (and a schema-valid
product name, as every API-created row has), a POST /orders whose
order-creation call succeeds answers 201 with the created order, issues
the decrement PUT with quantity q - 1, leaves the management table at
q - 1 with the product's cache entry invalidated, and a subsequent
inventory read for the product returns q - 1 (4 for the spec's q = 5). -/
theorem c8_saga_decrements_inventory (p : String) (q : Int) (o : OrderRow)
    (h3 : 3 ≤ p.length) (h30 : p.length ≤ 30) (hq : 0 < q) :
    runSagaSystem ⟨[⟨1, p, q⟩], []⟩ p (.success (.order o))
        = ((⟨201, .order o⟩, ⟨true, some (q - 1)⟩), ⟨[⟨1, p, q - 1⟩], []⟩) ∧
      (mgmtGetProductRoute ⟨[⟨1, p, q - 1⟩], []⟩ p).1 = ⟨200, .mgmt ⟨p, q - 1⟩⟩ := by
  have hv : mgmtUpdateValid p (q - 1) := ⟨h3, h30, by omega⟩
  constructor
  · simp [runSagaSystem, mgmtGetProductRoute, ManagementService.getManagementByProduct,
      cacheGet, ManagementModel.getByProduct, cacheSet, cacheDel,
      mgmtPutProductRoute, ManagementService.decreaseQuantity,
      ManagementModel.decreaseQuantity, outcomeOfMgmtResponse,
      postOrders, postOrdersTry, fire, jsQuantity, hv, hq]
  · simp [mgmtGetProductRoute, ManagementService.getManagementByProduct,
      cacheGet, ManagementModel.getByProduct, cacheSet]

theorem c8_saga_decrements_inventory_witness :
    runSagaSystem ⟨[⟨1, "widget", 5⟩], []⟩ "widget"
          (.success (.order ⟨1, 1, "widget"⟩))
        = ((⟨201, .order ⟨1, 1, "widget"⟩⟩, ⟨true, some 4⟩),
            ⟨[⟨1, "widget", 4⟩], []⟩) ∧
      (mgmtGetProductRoute ⟨[⟨1, "widget", 4⟩], []⟩ "widget").1
        = ⟨200, .mgmt ⟨"widget", 4⟩⟩ :=
  c8_saga_decrements_inventory "widget" 5 ⟨1, 1, "widget"⟩ (by decide) (by decide)
    (by decide)
